import Mathlib

/-!
Verification development for an incident-reporting application.

The data model, row-level-security (RLS) policy set and trigger functions are
translated from the database migration
(`supabase/migrations/20251003141545_....sql`); the client-side flows
(`handleSubmit` of `ReportIncident.tsx`, `checkAdminAccess` of the admin
dashboard) are translated from the TypeScript pages.  Opaque UUIDs are
modelled as `Nat`, timestamps as `Nat`, JSONB payloads as opaque
`Option String`.
-/

namespace CyberRakshak

abbrev UserId := Nat

/-- Enum `public.app_role` from the migration. -/
inductive AppRole
| user
| admin
| cert_admin
deriving DecidableEq

/-- Enum `public.incident_status` from the migration. -/
inductive IncidentStatus
| submitted
| under_review
| investigating
| resolved
| closed
deriving DecidableEq

/-- Enum `public.threat_level` from the migration. -/
inductive ThreatLevel
| low
| medium
| high
| critical
deriving DecidableEq

/-- Enum `public.incident_type` from the migration. -/
inductive IncidentType
| phishing
| malware
| fraud
| espionage
| data_breach
| other
deriving DecidableEq

/-- A row of `auth.users` (external identity store): only the columns the
trigger `handle_new_user` reads are modelled (`id`,
`raw_user_meta_data->>'full_name'`). -/
structure AuthUser where
  id : UserId
  raw_user_meta_full_name : Option String
deriving DecidableEq

/-- A row of `public.profiles`. -/
structure Profile where
  id : UserId
  full_name : String
  rank : Option String
  unit : Option String
  phone : Option String
  created_at : Nat
  updated_at : Nat
deriving DecidableEq

/-- A row of `public.user_roles`. -/
structure UserRole where
  id : Nat
  user_id : UserId
  role : AppRole
  assigned_at : Nat
  assigned_by : Option UserId
deriving DecidableEq

/-- A row of `public.incidents`. -/
structure Incident where
  id : Nat
  user_id : UserId
  incident_type : IncidentType
  status : IncidentStatus
  threat_level : Option ThreatLevel
  title : String
  description : String
  location : Option String
  occurred_at : Option Nat
  ai_analysis_result : Option String
  recommendations : Option (List String)
  assigned_to : Option UserId
  priority_score : Int
  created_at : Nat
  updated_at : Nat
  resolved_at : Option Nat
deriving DecidableEq

/-- A row of `public.incident_files`. -/
structure IncidentFile where
  id : Nat
  incident_id : Nat
  file_name : String
  file_path : String
  file_type : String
  file_size : Option Nat
  uploaded_at : Nat
deriving DecidableEq

/-- A row of `public.audit_logs`. -/
structure AuditLog where
  id : Nat
  user_id : Option UserId
  action : String
  entity_type : String
  entity_id : Option Nat
  details : Option String
  ip_address : Option String
  created_at : Nat
deriving DecidableEq

/-- The persistent state: the five public tables, the external `auth.users`
table, and the keys of the objects held by the `incident-evidence` storage
bucket. -/
structure DBState where
  auth_users : List AuthUser
  profiles : List Profile
  user_roles : List UserRole
  incidents : List Incident
  incident_files : List IncidentFile
  storage_objects : List String
deriving DecidableEq

/-- `public.has_role(_user_id, _role)`: `EXISTS (SELECT 1 FROM user_roles
WHERE user_id = _user_id AND role = _role)`. -/
def has_role (s : DBState) (uid : UserId) (r : AppRole) : Bool :=
  s.user_roles.any (fun ur => ur.user_id == uid && ur.role == r)

/-- The SQL command a policy is declared `FOR`. -/
inductive Cmd
| sel
| ins
| upd
| del
| allCmd
deriving DecidableEq

/-- A policy declared `FOR c` applies to an operation `op` when `c` is
`ALL` or equals `op`. -/
def Cmd.applies : Cmd → Cmd → Bool
| .allCmd, _ => true
| .sel, .sel => true
| .ins, .ins => true
| .upd, .upd => true
| .del, .del => true
| _, _ => false

/-- One RLS policy on a table with rows of type `Row`: its name, the command
it is declared for, and its predicate (`USING` and/or `WITH CHECK`
expression; every policy of this schema carries a single expression). -/
structure Policy (Row : Type) where
  pname : String
  cmd : Cmd
  pred : DBState → UserId → Row → Bool

/-- RLS evaluation: an operation `op` by caller `c` on row `r` is permitted
iff some policy declared for `op` grants it (policies are permissive and
OR-combined; no matching policy means deny). -/
def allowed {Row : Type} (ps : List (Policy Row)) (op : Cmd) (s : DBState) (c : UserId) (r : Row) : Bool :=
  ps.any (fun p => Cmd.applies p.cmd op && p.pred s c r)

/-- The four RLS policies on `public.profiles`. -/
def profiles_policies : List (Policy Profile) :=
  [ ⟨ "Users can view their own profile", .sel, fun _ c r => c == r.id ⟩,
    ⟨ "Users can update their own profile", .upd, fun _ c r => c == r.id ⟩,
    ⟨ "Users can insert their own profile", .ins, fun _ c r => c == r.id ⟩,
    ⟨ "Admins can view all profiles", .sel,
      fun s c _ => has_role s c .admin || has_role s c .cert_admin ⟩ ]

/-- The two RLS policies on `public.user_roles`. -/
def user_roles_policies : List (Policy UserRole) :=
  [ ⟨ "Users can view their own roles", .sel, fun _ c r => c == r.user_id ⟩,
    ⟨ "Admins can manage all roles", .allCmd, fun s c _ => has_role s c .cert_admin ⟩ ]

/-- The five RLS policies on `public.incidents`. -/
def incidents_policies : List (Policy Incident) :=
  [ ⟨ "Users can view their own incidents", .sel, fun _ c r => c == r.user_id ⟩,
    ⟨ "Users can create incidents", .ins, fun _ c r => c == r.user_id ⟩,
    ⟨ "Users can update their own incidents", .upd, fun _ c r => c == r.user_id ⟩,
    ⟨ "Admins can view all incidents", .sel,
      fun s c _ => has_role s c .admin || has_role s c .cert_admin ⟩,
    ⟨ "Admins can update all incidents", .upd,
      fun s c _ => has_role s c .admin || has_role s c .cert_admin ⟩ ]

/-- The correlated existence check of the `incident_files` policies:
`EXISTS (SELECT 1 FROM incidents WHERE incidents.id =
incident_files.incident_id AND incidents.user_id = auth.uid())`. -/
def owns_parent_incident (s : DBState) (c : UserId) (r : IncidentFile) : Bool :=
  s.incidents.any (fun i => i.id == r.incident_id && i.user_id == c)

/-- The three RLS policies on `public.incident_files`. -/
def incident_files_policies : List (Policy IncidentFile) :=
  [ ⟨ "Users can view files for their incidents", .sel, owns_parent_incident ⟩,
    ⟨ "Users can upload files to their incidents", .ins, owns_parent_incident ⟩,
    ⟨ "Admins can view all incident files", .sel,
      fun s c _ => has_role s c .admin || has_role s c .cert_admin ⟩ ]

/-- The two RLS policies on `public.audit_logs`. -/
def audit_logs_policies : List (Policy AuditLog) :=
  [ ⟨ "Admins can view audit logs", .sel, fun s c _ => has_role s c .cert_admin ⟩,
    ⟨ "System can insert audit logs", .ins, fun _ _ _ => true ⟩ ]

/-- A DELETE issued against `public.incidents`: RLS filter semantics remove
only the rows that both match the client's filter `p` and pass some DELETE
policy. -/
def delete_incidents (s : DBState) (c : UserId) (p : Incident → Bool) : DBState :=
  { s with incidents :=
      s.incidents.filter (fun r => !(p r && allowed incidents_policies .del s c r)) }

/-- The trigger function `public.handle_updated_at` applied to a NEW
incident row: `NEW.updated_at = NOW()`. -/
def handle_updated_at_incident (now : Nat) (r : Incident) : Incident :=
  { r with updated_at := now }

/-- The trigger function `public.handle_updated_at` applied to a NEW
profile row: `NEW.updated_at = NOW()`. -/
def handle_updated_at_profile (now : Nat) (p : Profile) : Profile :=
  { p with updated_at := now }

/-- The effect of an UPDATE statement on a single `incidents` row: a row
matching the client's target id and passing some UPDATE policy is replaced
by the client-supplied SET result `f r`, after the BEFORE UPDATE trigger
`set_incidents_updated_at` rewrote its `updated_at`; other rows are left
untouched (RLS filter semantics). -/
def incident_row_update (s : DBState) (c : UserId) (now tid : Nat) (f : Incident → Incident) (r : Incident) : Incident :=
  if r.id == tid && allowed incidents_policies .upd s c r then
    handle_updated_at_incident now (f r)
  else r

/-- An UPDATE issued by caller `c` against `public.incidents` targeting the
row with id `tid`, with SET clause `f`. -/
def update_incident (s : DBState) (c : UserId) (now tid : Nat) (f : Incident → Incident) : DBState :=
  { s with incidents := s.incidents.map (incident_row_update s c now tid f) }

/-- The effect of an UPDATE statement on a single `profiles` row, with the
BEFORE UPDATE trigger `set_profiles_updated_at`. -/
def profile_row_update (s : DBState) (c : UserId) (now pid : Nat) (g : Profile → Profile) (q : Profile) : Profile :=
  if q.id == pid && allowed profiles_policies .upd s c q then
    handle_updated_at_profile now (g q)
  else q

/-- An UPDATE issued by caller `c` against `public.profiles` targeting the
row with id `pid`, with SET clause `g`. -/
def update_profile (s : DBState) (c : UserId) (now pid : Nat) (g : Profile → Profile) : DBState :=
  { s with profiles := s.profiles.map (profile_row_update s c now pid g) }

/-- An INSERT into `public.profiles`: fails on a primary-key conflict
(`id` is the primary key). -/
def insert_profile (s : DBState) (p : Profile) : Option DBState :=
  if s.profiles.any (fun q => q.id == p.id) then none
  else some { s with profiles := s.profiles ++ [p] }

/-- An INSERT into `public.user_roles`: fails on a `UNIQUE(user_id, role)`
conflict. -/
def insert_user_role (s : DBState) (r : UserRole) : Option DBState :=
  if s.user_roles.any (fun q => q.user_id == r.user_id && q.role == r.role) then none
  else some { s with user_roles := s.user_roles ++ [r] }

/-- The trigger function `public.handle_new_user`: insert a profile with
`full_name = COALESCE(NEW.raw_user_meta_data->>'full_name', 'User')`,
then insert the default `(NEW.id, 'user')` role row; either failure fails
the whole trigger (it runs inside the transaction of the identity insert;
the generated role-row uuid is modelled by a counter). -/
def handle_new_user (s : DBState) (u : AuthUser) (now : Nat) : Option DBState :=
  (insert_profile s
    { id := u.id, full_name := u.raw_user_meta_full_name.getD "User",
      rank := none, unit := none, phone := none,
      created_at := now, updated_at := now }).bind
    (fun s1 => insert_user_role s1
      { id := s1.user_roles.length, user_id := u.id, role := .user,
        assigned_at := now, assigned_by := none })

/-- Identity creation: insert the row into `auth.users` (fails on duplicate
id), then run the `on_auth_user_created` AFTER INSERT trigger in the same
transaction; if the trigger fails the identity creation fails as a whole. -/
def create_user (s : DBState) (u : AuthUser) (now : Nat) : Option DBState :=
  if s.auth_users.any (fun v => v.id == u.id) then none
  else handle_new_user { s with auth_users := s.auth_users ++ [u] } u now

/-- A file attached to a submission: name, MIME type, size in bytes. -/
structure FileInfo where
  name : String
  mime : String
  size : Nat
deriving DecidableEq

/-- The `allowed_mime_types` of the `incident-evidence` storage bucket. -/
def evidence_mime_types : List String :=
  [ "image/jpeg", "image/png", "image/gif", "video/mp4", "video/quicktime",
    "audio/mpeg", "audio/wav", "application/pdf", "text/plain", "application/zip" ]

/-- The bucket-level allow-list of the `incident-evidence` bucket: a 50 MB
(`52428800` bytes) per-object limit and the MIME allow-list. -/
def bucket_accepts (f : FileInfo) : Bool :=
  decide (f.size ≤ 52428800) && evidence_mime_types.contains f.mime

/-- Outcomes of the external backend calls the submission flow makes, beyond
what the schema itself decides: a rejected incident insert, a per-file
storage-upload failure, a per-file metadata-insert failure. -/
structure Backend where
  incident_insert_err : Bool
  upload_err : FileInfo → Bool
  file_insert_err : FileInfo → Bool

/-- The object key built in `handleSubmit`:
`${user.id}/${incident.id}/${Date.now()}.${fileExt}` where `fileExt` is
`file.name.split('.').pop()`. -/
def evidence_path (uid iid now : Nat) (f : FileInfo) : String :=
  toString uid ++ "/" ++ toString iid ++ "/" ++ toString now ++ "." ++
    (f.name.splitOn ".").getLastD ""

/-- One iteration of the upload loop of `handleSubmit`: upload the blob
(failing if the backend errors or the bucket allow-list rejects the file —
on failure the error is logged and the loop continues), then insert the
`incident_files` row; the result of that insert is not inspected, so a
failed insert (backend error or policy denial) is silently skipped too. -/
def upload_step (b : Backend) (uid iid now : Nat) (s : DBState) (f : FileInfo) : DBState :=
  if b.upload_err f || !(bucket_accepts f) then s
  else
    let path := evidence_path uid iid now f
    let s1 := { s with storage_objects := s.storage_objects ++ [path] }
    let row : IncidentFile :=
      { id := s1.incident_files.length, incident_id := iid, file_name := f.name,
        file_path := path, file_type := f.mime, file_size := some f.size,
        uploaded_at := now }
    if b.file_insert_err f || !(allowed incident_files_policies .ins s1 uid row) then s1
    else { s1 with incident_files := s1.incident_files ++ [row] }

/-- The form state of `ReportIncident.tsx`. -/
structure FormData where
  title : String
  description : String
  incident_type : IncidentType
  location : String
  occurred_at : Option Nat
deriving DecidableEq

/-- The incident row `handleSubmit` inserts; the columns it does not supply
take their schema defaults (`status = 'submitted'`, `threat_level = NULL`,
`priority_score = 0`, timestamps `NOW()`). -/
def mk_incident (uid newId : Nat) (form : FormData) (now : Nat) : Incident :=
  { id := newId, user_id := uid, incident_type := form.incident_type,
    status := .submitted, threat_level := none,
    title := form.title, description := form.description,
    location := some form.location, occurred_at := form.occurred_at,
    ai_analysis_result := none, recommendations := none, assigned_to := none,
    priority_score := 0, created_at := now, updated_at := now, resolved_at := none }

/-- The user-visible outcome of `handleSubmit`. -/
inductive SubmitResult
| authRedirect
| submitError
| success
deriving DecidableEq

/-- `handleSubmit` of `ReportIncident.tsx`: no session redirects to
sign-in; a failed incident insert aborts before any upload; then each
attached file is uploaded and recorded by `upload_step`, and the flow
reports success. -/
def handleSubmit (s : DBState) (b : Backend) (user : Option UserId) (form : FormData)
    (files : List FileInfo) (newId now : Nat) : SubmitResult × DBState :=
  match user with
  | none => (.authRedirect, s)
  | some uid =>
    let inc := mk_incident uid newId form now
    if b.incident_insert_err || !(allowed incidents_policies .ins s uid inc) then
      (.submitError, s)
    else
      let s1 := { s with incidents := s.incidents ++ [inc] }
      (.success, files.foldl (upload_step b uid newId now) s1)

/-- The rows returned by the role query of `checkAdminAccess`:
`from('user_roles').select('role').eq('user_id', uid).in('role',
['admin','cert_admin'])`, filtered by the RLS SELECT policies. -/
def priv_role_rows (s : DBState) (uid : UserId) : List UserRole :=
  s.user_roles.filter (fun r =>
    (r.user_id == uid && (r.role == AppRole.admin || r.role == AppRole.cert_admin)) &&
    allowed user_roles_policies .sel s uid r)

/-- `checkAdminAccess` of the admin dashboard: the role query ends in
`.single()`, whose data is non-null exactly when the query matched one row;
a null `roleData` (including the no-session case) denies access. -/
def checkAdminAccess (s : DBState) (user : Option UserId) : Bool :=
  match user with
  | none => false
  | some uid =>
    match priv_role_rows s uid with
    | [_] => true
    | _ => false

/-- An empty database, used by the concrete runs below. -/
def emptyDB : DBState :=
  { auth_users := [], profiles := [], user_roles := [], incidents := [],
    incident_files := [], storage_objects := [] }

/-- A template incident row for the concrete runs below. -/
def baseIncident : Incident :=
  { id := 0, user_id := 1, incident_type := .phishing, status := .submitted,
    threat_level := none, title := "Suspicious login", description := "d",
    location := none, occurred_at := none, ai_analysis_result := none,
    recommendations := none, assigned_to := none, priority_score := 0,
    created_at := 0, updated_at := 0, resolved_at := none }

/-- A template profile row for the concrete runs below. -/
def baseProfile : Profile :=
  { id := 1, full_name := "User", rank := none, unit := none, phone := none,
    created_at := 0, updated_at := 0 }

/-- A file's upload succeeds: the backend does not error and the bucket
allow-list accepts it. -/
def uploads_ok (b : Backend) (f : FileInfo) : Bool :=
  !(b.upload_err f) && bucket_accepts f

/-- A file's metadata row is recorded: its upload succeeded and its
`incident_files` insert did not error. -/
def records_ok (b : Backend) (f : FileInfo) : Bool :=
  uploads_ok b f && !(b.file_insert_err f)

/-- A backend in which no external call fails. -/
def cleanBackend : Backend :=
  { incident_insert_err := false, upload_err := fun _ => false,
    file_insert_err := fun _ => false }

/-- A backend in which the metadata insert for `a.png` fails and nothing
else does. -/
def wBackend : Backend :=
  { incident_insert_err := false, upload_err := fun _ => false,
    file_insert_err := fun f => f.name == "a.png" }

/-- A small acceptable image. -/
def wFileA : FileInfo := { name := "a.png", mime := "image/png", size := 100 }

/-- Another small acceptable image. -/
def wFileB : FileInfo := { name := "b.png", mime := "image/png", size := 200 }

/-- An archive over the 50 MB bucket limit, rejected by the allow-list. -/
def wFileBig : FileInfo :=
  { name := "big.zip", mime := "application/zip", size := 52428801 }

/-- A concrete submission form. -/
def wForm : FormData :=
  { title := "T", description := "D", incident_type := .malware,
    location := "Delhi", occurred_at := none }

/-- Three attached files of which exactly one is rejected by the bucket
allow-list. -/
def wFiles3 : List FileInfo := [wFileA, wFileBig, wFileB]

/-- Two acceptable attached files. -/
def wFiles2 : List FileInfo := [wFileA, wFileB]

/-- Concrete state for the C9 run: user 5 holds both privileged roles,
user 6 holds only admin. -/
def w9State : DBState :=
  { emptyDB with
    user_roles :=
      [ { id := 1, user_id := 5, role := .admin, assigned_at := 0, assigned_by := none },
        { id := 2, user_id := 5, role := .cert_admin, assigned_at := 0, assigned_by := none },
        { id := 3, user_id := 6, role := .admin, assigned_at := 0, assigned_by := none } ] }

/-- A concrete new identity for the C2 run. -/
def wAuthUser : AuthUser := { id := 1, raw_user_meta_full_name := some "Asha" }

/-- Concrete state for the C4 run: user 1 owns incident 0 and profile 1. -/
def w4State : DBState :=
  { emptyDB with incidents := [baseIncident], profiles := [baseProfile] }

/-- Concrete state for the C1 run: user 1 (no privileged role) owns
incident 0, user 2 holds the admin role. -/
def w1State : DBState :=
  { emptyDB with
    incidents := [baseIncident],
    user_roles := [{ id := 10, user_id := 2, role := .admin,
                     assigned_at := 0, assigned_by := none }] }

/-- Claim C3: mutations of `user_roles` rows are permitted exactly for
cert_admin callers; a caller who is not cert_admin (in particular one
holding only admin) can never insert, update or delete a role row, and
row visibility is own-rows-or-cert_admin. -/
theorem role_management_cert_admin_only (s : DBState) (c : UserId) (r : UserRole) :
    allowed user_roles_policies .ins s c r = has_role s c .cert_admin ∧
    allowed user_roles_policies .upd s c r = has_role s c .cert_admin ∧
    allowed user_roles_policies .del s c r = has_role s c .cert_admin ∧
    allowed user_roles_policies .sel s c r = ((c == r.user_id) || has_role s c .cert_admin) := by
  simp [allowed, user_roles_policies, Cmd.applies, beq_iff_eq]

/-- Claim C6: reading `audit_logs` is permitted exactly for cert_admin
callers (a caller holding only admin is denied), while inserting is
unconditionally permitted for every caller. -/
theorem audit_log_access_asymmetric (s : DBState) (c : UserId) (r : AuditLog) :
    allowed audit_logs_policies .sel s c r = has_role s c .cert_admin ∧
    allowed audit_logs_policies .ins s c r = true := by
  simp [allowed, audit_logs_policies, Cmd.applies, beq_iff_eq]

/-- Claim C7: an `incident_files` row is selectable exactly when the caller
owns the parent incident (correlated existence check) or holds the admin or
cert_admin role, and insertable exactly when the caller owns the parent
incident — roles alone never grant insert. -/
theorem evidence_file_access (s : DBState) (c : UserId) (r : IncidentFile) :
    allowed incident_files_policies .sel s c r =
      (owns_parent_incident s c r || (has_role s c .admin || has_role s c .cert_admin)) ∧
    allowed incident_files_policies .ins s c r = owns_parent_incident s c r := by
  simp [allowed, incident_files_policies, Cmd.applies, beq_iff_eq]

/-- Claim C8: no DELETE policy exists on `public.incidents`, so under the
no-policy-matches-means-deny default every delete of an incident row is
denied for every caller in every state, and a DELETE statement leaves the
table unchanged. -/
theorem incidents_never_deletable (s : DBState) (c : UserId) (r : Incident) (p : Incident → Bool) :
    allowed incidents_policies .del s c r = false ∧
    delete_incidents s c p = s := by
  constructor
  · simp [allowed, incidents_policies, Cmd.applies, beq_iff_eq]
  · show { s with incidents := _ } = s
    have h : (fun r => !(p r && allowed incidents_policies .del s c r)) = fun _ : Incident => true := by
      funext r
      simp [allowed, incidents_policies, Cmd.applies, beq_iff_eq]
    rw [h, List.filter_true]

/-- Claim C4: every row an UPDATE actually mutates (matching the target and
passing an UPDATE policy) has its `updated_at` set to the server time `now`
by the BEFORE UPDATE trigger, whatever fields the SET clause `f`/`g`
modified and whatever `updated_at` value it supplied; hence with a
monotone clock the new `updated_at` is ≥ the previous one (and it equals
the time of the call, so is ≥ it). -/
theorem updated_at_server_assigned (s : DBState) (c : UserId) (now tid pid : Nat)
    (f : Incident → Incident) (g : Profile → Profile) (r : Incident) (q : Profile)
    (hinc : (r.id == tid && allowed incidents_policies .upd s c r) = true)
    (hpro : (q.id == pid && allowed profiles_policies .upd s c q) = true)
    (hr : r.updated_at ≤ now) (hq : q.updated_at ≤ now) :
    (update_incident s c now tid f).incidents = s.incidents.map (incident_row_update s c now tid f) ∧
    (incident_row_update s c now tid f r).updated_at = now ∧
    r.updated_at ≤ (incident_row_update s c now tid f r).updated_at ∧
    (update_profile s c now pid g).profiles = s.profiles.map (profile_row_update s c now pid g) ∧
    (profile_row_update s c now pid g q).updated_at = now ∧
    q.updated_at ≤ (profile_row_update s c now pid g q).updated_at := by
  refine ⟨rfl, ?_, ?_, rfl, ?_, ?_⟩ <;>
    simp [incident_row_update, profile_row_update, hinc, hpro,
      handle_updated_at_incident, handle_updated_at_profile, hr, hq]

/-- Concrete run of `updated_at_server_assigned`: user 1 updates their own
incident 0 and profile 1 at time 7, supplying a bogus `updated_at = 999`
that is not persisted. -/
theorem updated_at_server_assigned_witness :
    ((baseIncident.id == 0 && allowed incidents_policies .upd w4State 1 baseIncident) = true) ∧
    ((baseProfile.id == 1 && allowed profiles_policies .upd w4State 1 baseProfile) = true) ∧
    (incident_row_update w4State 1 7 0 (fun x => { x with status := .closed, updated_at := 999 }) baseIncident).updated_at = 7 ∧
    (profile_row_update w4State 1 7 1 (fun x => { x with phone := some "7", updated_at := 999 }) baseProfile).updated_at = 7 := by
  refine ⟨by decide, by decide, ?_, ?_⟩
  · exact (updated_at_server_assigned w4State 1 7 0 1
      (fun x => { x with status := .closed, updated_at := 999 })
      (fun x => { x with phone := some "7", updated_at := 999 }) baseIncident baseProfile
      (by decide) (by decide) (by decide) (by decide)).2.1
  · exact (updated_at_server_assigned w4State 1 7 0 1
      (fun x => { x with status := .closed, updated_at := 999 })
      (fun x => { x with phone := some "7", updated_at := 999 }) baseIncident baseProfile
      (by decide) (by decide) (by decide) (by decide)).2.2.2.2.1

/-- Counterexample to claim C1: user 1 holds no privileged role and owns
incident 0; the policy engine nevertheless permits their UPDATE, and an
update changing `status` and `threat_level` goes through (the policy set
carries no column restriction), contradicting the claimed denial. -/
theorem filer_status_update_not_denied :
    has_role w4State 1 .admin = false ∧
    has_role w4State 1 .cert_admin = false ∧
    allowed incidents_policies .upd w4State 1 baseIncident = true ∧
    (update_incident w4State 1 5 0
        (fun r => { r with status := .under_review, threat_level := some .critical })).incidents =
      [{ baseIncident with
          status := .under_review,
          threat_level := some .critical,
          updated_at := 5 }] := by
  decide

/-- Claim C1 (amended): the filer's own UPDATE policy path permits them to
update their own incident with no column restriction — an update by the
filer changing `status` or `threat_level` succeeds; updates by admin or
cert_admin callers to those fields also succeed and the updated row, with
the new threat level, is select-visible to the filer. -/
theorem incident_update_policy_unrestricted (s : DBState) (u a now : Nat)
    (r : Incident) (lvl : ThreatLevel) (f : Incident → Incident)
    (hown : r.user_id = u)
    (ha : has_role s a .admin = true ∨ has_role s a .cert_admin = true) :
    allowed incidents_policies .upd s u r = true ∧
    incident_row_update s u now r.id f r = handle_updated_at_incident now (f r) ∧
    allowed incidents_policies .upd s a r = true ∧
    (incident_row_update s a now r.id (fun x => { x with threat_level := some lvl }) r).threat_level = some lvl ∧
    (r ∈ s.incidents →
      incident_row_update s a now r.id (fun x => { x with threat_level := some lvl }) r ∈
        (update_incident s a now r.id (fun x => { x with threat_level := some lvl })).incidents) ∧
    allowed incidents_policies .sel
      (update_incident s a now r.id (fun x => { x with threat_level := some lvl })) u
      (incident_row_update s a now r.id (fun x => { x with threat_level := some lvl }) r) = true := by
  have hu : allowed incidents_policies .upd s u r = true := by
    simp [allowed, incidents_policies, Cmd.applies, beq_iff_eq, hown]
  have hadm : allowed incidents_policies .upd s a r = true := by
    simp [allowed, incidents_policies, Cmd.applies, beq_iff_eq]
    tauto
  have hrowa : incident_row_update s a now r.id (fun x => { x with threat_level := some lvl }) r =
      handle_updated_at_incident now { r with threat_level := some lvl } := by
    simp [incident_row_update, hadm]
  refine ⟨hu, ?_, hadm, ?_, ?_, ?_⟩
  · simp [incident_row_update, hu]
  · rw [hrowa]
    simp [handle_updated_at_incident]
  · intro hmem
    exact List.mem_map_of_mem _ hmem
  · rw [hrowa]
    simp [allowed, incidents_policies, Cmd.applies, beq_iff_eq,
      handle_updated_at_incident, hown]

/-- Concrete run of `incident_update_policy_unrestricted`: in a state where
user 2 is an admin and user 1 owns incident 0, the owner may update, the
admin may update, and the admin's critical-threat update is select-visible
to the owner. -/
theorem incident_update_policy_unrestricted_witness :
    baseIncident.user_id = 1 ∧
    has_role w1State 2 .admin = true ∧
    allowed incidents_policies .upd w1State 1 baseIncident = true ∧
    allowed incidents_policies .upd w1State 2 baseIncident = true ∧
    (incident_row_update w1State 2 9 baseIncident.id
        (fun x => { x with threat_level := some .critical }) baseIncident).threat_level =
      some ThreatLevel.critical := by
  have h := incident_update_policy_unrestricted w1State 1 2 9 baseIncident .critical id
    (by decide) (Or.inl (by decide))
  exact ⟨by decide, by decide, h.1, h.2.2.1, h.2.2.2.1⟩

/-- Claim C2: a successful identity creation leaves exactly one profile
with the identity's id (its `full_name` the supplied metadata, defaulting
to the literal "User") and exactly one `(id, 'user')` role assignment —
never zero and never duplicated; and since the bootstrap trigger runs in
the identity-creation transaction, a failed insert fails the creation as a
whole (`create_user` returns no state at all), so no partial bootstrap
state is reachable. -/
theorem identity_bootstrap (s : DBState) (u : AuthUser) (now : Nat) (s2 : DBState)
    (h : create_user s u now = some s2) :
    s2.profiles.countP (fun p => p.id == u.id) = 1 ∧
    s2.user_roles.countP (fun rr => rr.user_id == u.id && rr.role == AppRole.user) = 1 ∧
    ∃ p, p ∈ s2.profiles ∧ p.id = u.id ∧
      p.full_name = u.raw_user_meta_full_name.getD "User" := by
  unfold create_user at h
  split at h
  · simp at h
  case isFalse hdup =>
  unfold handle_new_user at h
  rw [Option.bind_eq_some] at h
  obtain ⟨s1, hp, hr⟩ := h
  unfold insert_profile at hp
  split at hp
  · simp at hp
  case isFalse hnoP =>
  unfold insert_user_role at hr
  split at hr
  · simp at hr
  case isFalse hnoR =>
  injection hp with hp
  subst hp
  injection hr with hr
  subst hr
  simp only [Bool.not_eq_true, List.any_eq_false] at hnoP hnoR
  refine ⟨?_, ?_, ?_⟩
  · simp only [List.countP_append]
    rw [List.countP_eq_zero.mpr (by intro q hq; simpa using hnoP q hq)]
    simp [List.countP_cons]
  · simp only [List.countP_append]
    rw [List.countP_eq_zero.mpr (by intro q hq; simpa using hnoR q hq)]
    simp [List.countP_cons]
  · refine ⟨{ id := u.id, full_name := u.raw_user_meta_full_name.getD "User",
              rank := none, unit := none, phone := none,
              created_at := now, updated_at := now }, ?_, rfl, rfl⟩
    simp

/-- Concrete run of `identity_bootstrap`: creating identity 1 with metadata
name "Asha" in the empty database. -/
theorem identity_bootstrap_witness :
    ∃ s2, create_user emptyDB wAuthUser 10 = some s2 ∧
      s2.profiles.countP (fun p => p.id == wAuthUser.id) = 1 ∧
      s2.user_roles.countP (fun rr => rr.user_id == wAuthUser.id && rr.role == AppRole.user) = 1 := by
  have h := identity_bootstrap emptyDB wAuthUser 10 _ rfl
  exact ⟨_, rfl, h.1, h.2.1⟩

theorem countP_add_countP_not {α : Type} (p : α → Bool) (l : List α) :
    l.countP p + l.countP (fun a => !(p a)) = l.length := by
  induction l with
  | nil => rfl
  | cons a l ih =>
    simp only [List.countP_cons, List.length_cons]
    cases h : p a <;> simp [h] <;> omega

theorem allowed_files_ins (s2 : DBState) (uid : UserId) (row : IncidentFile)
    (h : s2.incidents.any (fun i => i.id == row.incident_id && i.user_id == uid) = true) :
    allowed incident_files_policies .ins s2 uid row = true := by
  simp only [allowed, incident_files_policies, Cmd.applies, List.any_cons, List.any_nil,
    Bool.true_and, Bool.false_and, Bool.or_false, Bool.false_or]
  simpa [owns_parent_incident] using h

theorem upload_step_state (b : Backend) (uid iid now : Nat) (s : DBState) (f : FileInfo)
    (hH : s.incidents.any (fun i => i.id == iid && i.user_id == uid) = true) :
    (upload_step b uid iid now s f).incidents = s.incidents ∧
    (upload_step b uid iid now s f).storage_objects.length =
      s.storage_objects.length + (if uploads_ok b f then 1 else 0) ∧
    (upload_step b uid iid now s f).incident_files.countP (fun fr => fr.incident_id == iid) =
      s.incident_files.countP (fun fr => fr.incident_id == iid) +
        (if records_ok b f then 1 else 0) := by
  cases hup : b.upload_err f with
  | true => simp [upload_step, uploads_ok, records_ok, hup]
  | false =>
    cases hacc : bucket_accepts f with
    | false => simp [upload_step, uploads_ok, records_ok, hup, hacc]
    | true =>
      cases hins : b.file_insert_err f with
      | true =>
        simp [upload_step, uploads_ok, records_ok, hup, hacc, hins, List.countP_append]
      | false =>
        simp [upload_step, uploads_ok, records_ok, hup, hacc, hins,
          allowed_files_ins, hH, List.countP_append, List.countP_cons]

theorem upload_fold_state (b : Backend) (uid iid now : Nat) (files : List FileInfo) (s : DBState)
    (hH : s.incidents.any (fun i => i.id == iid && i.user_id == uid) = true) :
    (files.foldl (upload_step b uid iid now) s).incidents = s.incidents ∧
    (files.foldl (upload_step b uid iid now) s).storage_objects.length =
      s.storage_objects.length + files.countP (uploads_ok b) ∧
    (files.foldl (upload_step b uid iid now) s).incident_files.countP
        (fun fr => fr.incident_id == iid) =
      s.incident_files.countP (fun fr => fr.incident_id == iid) +
        files.countP (records_ok b) := by
  induction files generalizing s with
  | nil => simp
  | cons f fs ih =>
    obtain ⟨h1, h2, h3⟩ := upload_step_state b uid iid now s f hH
    have hH2 : (upload_step b uid iid now s f).incidents.any
        (fun i => i.id == iid && i.user_id == uid) = true := by rw [h1]; exact hH
    obtain ⟨g1, g2, g3⟩ := ih (upload_step b uid iid now s f) hH2
    refine ⟨by rw [List.foldl_cons, g1, h1], ?_, ?_⟩
    · rw [List.foldl_cons, g2, h2, List.countP_cons]
      omega
    · rw [List.foldl_cons, g3, h3, List.countP_cons]
      omega

/-- Claim C5: with no external failures beyond the bucket allow-list, a
submission whose `N` files include exactly one rejected by the allow-list
succeeds, leaves the incident row present with `status = 'submitted'`, and
records exactly `N - 1` evidence-file rows; and any failure of the
incident insert aborts the flow with the pre-submission state intact, so
before any blob upload. -/
theorem partial_upload_policy (s : DBState) (uid : UserId) (form : FormData)
    (files : List FileInfo) (newId now : Nat)
    (hfresh : s.incident_files.countP (fun fr => fr.incident_id == newId) = 0)
    (hone : files.countP (fun f => !(bucket_accepts f)) = 1) :
    (handleSubmit s cleanBackend (some uid) form files newId now).1 = .success ∧
    mk_incident uid newId form now ∈
      (handleSubmit s cleanBackend (some uid) form files newId now).2.incidents ∧
    (mk_incident uid newId form now).status = .submitted ∧
    (handleSubmit s cleanBackend (some uid) form files newId now).2.incident_files.countP
      (fun fr => fr.incident_id == newId) = files.length - 1 ∧
    (∀ b : Backend, b.incident_insert_err = true →
      handleSubmit s b (some uid) form files newId now = (.submitError, s)) := by
  have hins : allowed incidents_policies .ins s uid (mk_incident uid newId form now) = true := by
    simp [allowed, incidents_policies, Cmd.applies, mk_incident]
  have hcond : (cleanBackend.incident_insert_err ||
      !(allowed incidents_policies .ins s uid (mk_incident uid newId form now))) = false := by
    simp [cleanBackend, hins]
  have hH : ({ s with incidents := s.incidents ++ [mk_incident uid newId form now] } :
      DBState).incidents.any (fun i => i.id == newId && i.user_id == uid) = true := by
    simp [mk_incident]
  obtain ⟨h1, h2, h3⟩ := upload_fold_state cleanBackend uid newId now files
    { s with incidents := s.incidents ++ [mk_incident uid newId form now] } hH
  have hcount : files.countP (records_ok cleanBackend) = files.length - 1 := by
    have heq : files.countP (records_ok cleanBackend) = files.countP bucket_accepts := by
      apply List.countP_congr
      intro f _
      simp [records_ok, uploads_ok, cleanBackend]
    have hsplit := countP_add_countP_not bucket_accepts files
    rw [heq]
    omega
  refine ⟨?_, ?_, rfl, ?_, ?_⟩
  · simp only [handleSubmit, hcond, Bool.false_eq_true, if_false]
  · simp only [handleSubmit, hcond, Bool.false_eq_true, if_false]
    rw [h1]
    simp
  · simp only [handleSubmit, hcond, Bool.false_eq_true, if_false]
    rw [h3, hfresh, hcount]
    simp
  · intro b hb
    simp [handleSubmit, hb]

/-- Concrete run of `partial_upload_policy`: three files of which the
oversized archive is rejected leave two evidence rows and a submitted
incident. -/
theorem partial_upload_policy_witness :
    emptyDB.incident_files.countP (fun fr => fr.incident_id == 7) = 0 ∧
    wFiles3.countP (fun f => !(bucket_accepts f)) = 1 ∧
    (handleSubmit emptyDB cleanBackend (some 1) wForm wFiles3 7 20).1 = .success ∧
    (handleSubmit emptyDB cleanBackend (some 1) wForm wFiles3 7 20).2.incident_files.countP
      (fun fr => fr.incident_id == 7) = 2 := by
  have h := partial_upload_policy emptyDB 1 wForm wFiles3 7 20 (by decide) (by decide)
  exact ⟨by decide, by decide, h.1, h.2.2.2.1⟩

/-- Claim C10: when the incident insert succeeds the flow reports success
regardless of the outcomes of the per-file metadata inserts (whose results
are never inspected): every file whose upload succeeds adds a blob object,
every later file is still processed, and only the files whose metadata
insert also succeeded gain an `incident_files` row — so a stored blob can
exist with no corresponding row whenever some metadata insert failed. -/
theorem metadata_insert_unchecked (s : DBState) (b : Backend) (uid : UserId)
    (form : FormData) (files : List FileInfo) (newId now : Nat)
    (hb : b.incident_insert_err = false) :
    (handleSubmit s b (some uid) form files newId now).1 = .success ∧
    (handleSubmit s b (some uid) form files newId now).2.storage_objects.length =
      s.storage_objects.length + files.countP (uploads_ok b) ∧
    (handleSubmit s b (some uid) form files newId now).2.incident_files.countP
        (fun fr => fr.incident_id == newId) =
      s.incident_files.countP (fun fr => fr.incident_id == newId) +
        files.countP (records_ok b) := by
  have hins : allowed incidents_policies .ins s uid (mk_incident uid newId form now) = true := by
    simp [allowed, incidents_policies, Cmd.applies, mk_incident]
  have hcond : (b.incident_insert_err ||
      !(allowed incidents_policies .ins s uid (mk_incident uid newId form now))) = false := by
    simp [hb, hins]
  have hH : ({ s with incidents := s.incidents ++ [mk_incident uid newId form now] } :
      DBState).incidents.any (fun i => i.id == newId && i.user_id == uid) = true := by
    simp [mk_incident]
  obtain ⟨h1, h2, h3⟩ := upload_fold_state b uid newId now files
    { s with incidents := s.incidents ++ [mk_incident uid newId form now] } hH
  refine ⟨?_, ?_, ?_⟩
  · simp only [handleSubmit, hcond, Bool.false_eq_true, if_false]
  · simp only [handleSubmit, hcond, Bool.false_eq_true, if_false]
    exact h2
  · simp only [handleSubmit, hcond, Bool.false_eq_true, if_false]
    exact h3

/-- Concrete run of `metadata_insert_unchecked`: both uploads of two files
succeed (two blob objects) but the metadata insert of the first fails, so
only one row exists — and the flow still reports success. -/
theorem metadata_insert_unchecked_witness :
    wBackend.incident_insert_err = false ∧
    (handleSubmit emptyDB wBackend (some 1) wForm wFiles2 7 20).1 = .success ∧
    (handleSubmit emptyDB wBackend (some 1) wForm wFiles2 7 20).2.storage_objects.length = 2 ∧
    (handleSubmit emptyDB wBackend (some 1) wForm wFiles2 7 20).2.incident_files.countP
      (fun fr => fr.incident_id == 7) = 1 := by
  have h := metadata_insert_unchecked emptyDB wBackend 1 wForm wFiles2 7 20 (by decide)
  refine ⟨by decide, h.1, ?_, ?_⟩
  · rw [h.2.1]; decide
  · rw [h.2.2]; decide

theorem countP_or_disjoint {α : Type} (p q : α → Bool) (l : List α)
    (hdisj : ∀ x ∈ l, ¬(p x = true ∧ q x = true)) :
    l.countP (fun x => p x || q x) = l.countP p + l.countP q := by
  induction l with
  | nil => simp
  | cons a l ih =>
    simp only [List.countP_cons]
    rw [ih (fun x hx => hdisj x (List.mem_cons_of_mem a hx))]
    have ha := hdisj a (List.mem_cons_self a l)
    cases hp : p a
    · cases hq : q a <;> simp [hp, hq] <;> omega
    · cases hq : q a
      · simp [hp, hq]
        omega
      · exact absurd ⟨hp, hq⟩ ha

theorem countP_pair_le_one (l : List UserRole) (uidv : Nat) (ρ : AppRole)
    (hnodup : (l.map (fun r => (r.user_id, r.role))).Nodup) :
    l.countP (fun r => r.user_id == uidv && r.role == ρ) ≤ 1 := by
  induction l with
  | nil => simp
  | cons a l ih =>
    rw [List.map_cons, List.nodup_cons] at hnodup
    obtain ⟨hna, hnl⟩ := hnodup
    rw [List.countP_cons]
    by_cases ha : (a.user_id == uidv && a.role == ρ) = true
    · have h0 : l.countP (fun r => r.user_id == uidv && r.role == ρ) = 0 := by
        rw [List.countP_eq_zero]
        intro r hr hcontra
        apply hna
        have h1 : r.user_id = uidv ∧ r.role = ρ := by simpa using hcontra
        have h2 : a.user_id = uidv ∧ a.role = ρ := by simpa using ha
        rw [List.mem_map]
        exact ⟨r, hr, by rw [h1.1, h1.2, h2.1, h2.2]⟩
      rw [h0]
      simp [ha]
    · have := ih hnl
      rw [if_neg ha]
      omega

theorem check_admin_iff_one_row (s : DBState) (uid : UserId) :
    checkAdminAccess s (some uid) = true ↔ (priv_role_rows s uid).length = 1 := by
  rcases hl : priv_role_rows s uid with _ | ⟨a, _ | ⟨b, t⟩⟩ <;>
    simp [checkAdminAccess, hl]

theorem priv_rows_length_split (s : DBState) (uid : UserId) :
    (priv_role_rows s uid).length =
      s.user_roles.countP (fun r => r.user_id == uid && r.role == AppRole.admin) +
      s.user_roles.countP (fun r => r.user_id == uid && r.role == AppRole.cert_admin) := by
  have h1 : (priv_role_rows s uid).length = s.user_roles.countP (fun r =>
      (r.user_id == uid && (r.role == AppRole.admin || r.role == AppRole.cert_admin)) &&
      allowed user_roles_policies .sel s uid r) := by
    rw [priv_role_rows, ← List.countP_eq_length_filter]
  have h2 : ∀ r ∈ s.user_roles,
      ((r.user_id == uid && (r.role == AppRole.admin || r.role == AppRole.cert_admin)) &&
        allowed user_roles_policies .sel s uid r) = true ↔
      ((r.user_id == uid && r.role == AppRole.admin) ||
       (r.user_id == uid && r.role == AppRole.cert_admin)) = true := by
    intro r _
    by_cases hu : r.user_id = uid
    · simp [allowed, user_roles_policies, Cmd.applies, hu]
    · have hne : (r.user_id == uid) = false := by simp [hu]
      simp [hne]
  rw [h1, List.countP_congr h2, countP_or_disjoint]
  intro x _ hx
  obtain ⟨hxa, hxc⟩ := hx
  obtain ⟨-, h3⟩ : x.user_id = uid ∧ x.role = AppRole.admin := by simpa using hxa
  obtain ⟨-, h4⟩ : x.user_id = uid ∧ x.role = AppRole.cert_admin := by simpa using hxc
  rw [h3] at h4
  cases h4

/-- Claim C9: the admin-dashboard access check queries the caller's
privileged role rows with `.single()`, which yields data only when exactly
one row matched; hence, under the schema's `UNIQUE(user_id, role)`
constraint, access is granted iff the caller holds exactly one of the two
privileged roles — in particular a caller holding both admin and
cert_admin is denied despite holding admin privilege. -/
theorem admin_access_single_privileged_row (s : DBState) (uid : UserId)
    (hnodup : (s.user_roles.map (fun r => (r.user_id, r.role))).Nodup) :
    (checkAdminAccess s (some uid) = true ↔
      ((has_role s uid .admin = true ∧ has_role s uid .cert_admin = false) ∨
       (has_role s uid .admin = false ∧ has_role s uid .cert_admin = true))) ∧
    ((has_role s uid .admin = true ∧ has_role s uid .cert_admin = true) →
      checkAdminAccess s (some uid) = false) := by
  have hA1 := countP_pair_le_one s.user_roles uid .admin hnodup
  have hC1 := countP_pair_le_one s.user_roles uid .cert_admin hnodup
  have hA : has_role s uid .admin = true ↔
      0 < s.user_roles.countP (fun r => r.user_id == uid && r.role == AppRole.admin) := by
    rw [has_role, List.any_eq_true, List.countP_pos_iff]
  have hC : has_role s uid .cert_admin = true ↔
      0 < s.user_roles.countP (fun r => r.user_id == uid && r.role == AppRole.cert_admin) := by
    rw [has_role, List.any_eq_true, List.countP_pos_iff]
  have hA0 : has_role s uid .admin = false ↔
      s.user_roles.countP (fun r => r.user_id == uid && r.role == AppRole.admin) = 0 := by
    rw [← Bool.not_eq_true, hA]
    omega
  have hC0 : has_role s uid .cert_admin = false ↔
      s.user_roles.countP (fun r => r.user_id == uid && r.role == AppRole.cert_admin) = 0 := by
    rw [← Bool.not_eq_true, hC]
    omega
  have hlen := (check_admin_iff_one_row s uid).trans (by rw [priv_rows_length_split])
  constructor
  · rw [hlen]
    constructor
    · intro h
      have hsplit : (s.user_roles.countP (fun r => r.user_id == uid && r.role == AppRole.admin) = 1 ∧
          s.user_roles.countP (fun r => r.user_id == uid && r.role == AppRole.cert_admin) = 0) ∨
          (s.user_roles.countP (fun r => r.user_id == uid && r.role == AppRole.admin) = 0 ∧
          s.user_roles.countP (fun r => r.user_id == uid && r.role == AppRole.cert_admin) = 1) := by
        omega
      rcases hsplit with ⟨h1, h2⟩ | ⟨h1, h2⟩
      · exact Or.inl ⟨hA.mpr (by omega), hC0.mpr h2⟩
      · exact Or.inr ⟨hA0.mpr h1, hC.mpr (by omega)⟩
    · rintro (⟨h1, h2⟩ | ⟨h1, h2⟩)
      · rw [hA] at h1
        rw [hC0] at h2
        omega
      · rw [hA0] at h1
        rw [hC] at h2
        omega
  · rintro ⟨h1, h2⟩
    rw [hA] at h1
    rw [hC] at h2
    cases hcheck : checkAdminAccess s (some uid)
    · rfl
    · rw [hlen] at hcheck
      omega

/-- Concrete run of `admin_access_single_privileged_row`: user 5 holding
both privileged roles is denied; user 6 holding only admin is granted. -/
theorem admin_access_single_privileged_row_witness :
    checkAdminAccess w9State (some 5) = false ∧
    checkAdminAccess w9State (some 6) = true := by
  have h5 := admin_access_single_privileged_row w9State 5 (by decide)
  have h6 := admin_access_single_privileged_row w9State 6 (by decide)
  exact ⟨h5.2 ⟨by decide, by decide⟩, h6.1.mpr (Or.inl ⟨by decide, by decide⟩)⟩

end CyberRakshak
